import Mathlib

/-!
# Verification of the Lumi-Pilot LLM tool-calling orchestration loop

Shallow embedding of the tool-calling orchestration core of the repository:

* `src/infrastructure/llm/openai_client.py` — the wire client
  (`OpenAIClient.chat_completion`, the `ChatResponse` pydantic model with its
  `content` and `tool_calls` properties, and the message constructors);
* `src/infrastructure/mcp/client/manager.py` — the tool registry
  (`MCPManager.get_tools_for_llm`, `MCPManager.call_tool`);
* `src/infrastructure/llm/client.py` — the orchestration loop
  (`LLMClient.chat`, `LLMClient._execute_mcp_tool`).

External effects (the HTTP exchange with the provider, the FastMCP tool
invocation, `json.dumps`) are passed in as explicit oracle parameters; the
Python control flow around them is translated line by line.  Exceptions are
modelled with `Except`: a raised exception is an `Except.error` carrying
`str(e)`, and Python `try/except` blocks become `match`es on that value.
-/

namespace LumiPilot

/-- JSON values, the model of what Python's `json.loads` produces.
Numbers are restricted to integers (the development never decodes
floating-point arguments). -/
inductive Json where
  | null : Json
  | bool (b : Bool) : Json
  | num (n : Int) : Json
  | str (s : String) : Json
  | arr (elems : List Json) : Json
  | obj (fields : List (String × Json)) : Json
deriving Repr, Inhabited

/-- Skip JSON whitespace, as `json.loads` does between tokens. -/
def skipWs : List Char → List Char
  | [] => []
  | c :: cs => if c = ' ' ∨ c = '\t' ∨ c = '\n' ∨ c = '\r' then skipWs cs else c :: cs

/-- Parse the remainder of a JSON string literal (the opening quote already
consumed), handling the single-character escapes; `\u` escapes are outside the
modelled fragment and yield a decode error. -/
def parseStringRest (fuel : Nat) (cs : List Char) (acc : List Char) :
    Except String (String × List Char) :=
  match fuel with
  | 0 => .error "Unterminated string"
  | fuel + 1 =>
    match cs with
    | [] => .error "Unterminated string"
    | '"' :: rest => .ok (String.mk acc.reverse, rest)
    | '\\' :: e :: rest =>
      match e with
      | '"' => parseStringRest fuel rest ('"' :: acc)
      | '\\' => parseStringRest fuel rest ('\\' :: acc)
      | '/' => parseStringRest fuel rest ('/' :: acc)
      | 'n' => parseStringRest fuel rest ('\n' :: acc)
      | 't' => parseStringRest fuel rest ('\t' :: acc)
      | 'r' => parseStringRest fuel rest ('\r' :: acc)
      | 'b' => parseStringRest fuel rest ('\x08' :: acc)
      | 'f' => parseStringRest fuel rest ('\x0c' :: acc)
      | _ => .error "Invalid escape"
    | '\\' :: [] => .error "Unterminated string"
    | c :: rest => parseStringRest fuel rest (c :: acc)

/-- Parse a run of decimal digits. -/
def parseDigits (fuel : Nat) (cs : List Char) (acc : Nat) (seen : Bool) :
    Except String (Nat × List Char) :=
  match fuel with
  | 0 => .error "Expecting value"
  | fuel + 1 =>
    match cs with
    | c :: rest =>
      if c.isDigit then parseDigits fuel rest (acc * 10 + (c.toNat - '0'.toNat)) true
      else if seen then .ok (acc, cs) else .error "Expecting value"
    | [] => if seen then .ok (acc, cs) else .error "Expecting value"

mutual

/-- Parse one JSON value, the model of `json.loads`'s recursive-descent core. -/
def parseVal (fuel : Nat) (cs : List Char) : Except String (Json × List Char) :=
  match fuel with
  | 0 => .error "Expecting value"
  | fuel + 1 =>
    match skipWs cs with
    | [] => .error "Expecting value"
    | c :: rest =>
      if c = '{' then
        match skipWs rest with
        | '}' :: rest2 => .ok (.obj [], rest2)
        | rest2 => parseMembers fuel rest2 []
      else if c = '[' then
        match skipWs rest with
        | ']' :: rest2 => .ok (.arr [], rest2)
        | rest2 => parseItems fuel rest2 []
      else if c = '"' then
        match parseStringRest (rest.length + 1) rest [] with
        | .ok (s, rest2) => .ok (.str s, rest2)
        | .error e => .error e
      else if c = 't' then
        match rest with
        | 'r' :: 'u' :: 'e' :: rest2 => .ok (.bool true, rest2)
        | _ => .error "Expecting value"
      else if c = 'f' then
        match rest with
        | 'a' :: 'l' :: 's' :: 'e' :: rest2 => .ok (.bool false, rest2)
        | _ => .error "Expecting value"
      else if c = 'n' then
        match rest with
        | 'u' :: 'l' :: 'l' :: rest2 => .ok (.null, rest2)
        | _ => .error "Expecting value"
      else if c = '-' then
        match parseDigits (rest.length + 1) rest 0 false with
        | .ok (n, rest2) => .ok (.num (-(n : Int)), rest2)
        | .error e => .error e
      else if c.isDigit then
        match parseDigits (cs.length + 1) (c :: rest) 0 false with
        | .ok (n, rest2) => .ok (.num (n : Int), rest2)
        | .error e => .error e
      else .error "Expecting value"

/-- Parse the members of a JSON object after `{` (first member pending). -/
def parseMembers (fuel : Nat) (cs : List Char) (acc : List (String × Json)) :
    Except String (Json × List Char) :=
  match fuel with
  | 0 => .error "Expecting value"
  | fuel + 1 =>
    match skipWs cs with
    | '"' :: rest =>
      match parseStringRest (rest.length + 1) rest [] with
      | .error e => .error e
      | .ok (key, rest2) =>
        match skipWs rest2 with
        | ':' :: rest3 =>
          match parseVal fuel rest3 with
          | .error e => .error e
          | .ok (v, rest4) =>
            match skipWs rest4 with
            | ',' :: rest5 => parseMembers fuel rest5 ((key, v) :: acc)
            | '}' :: rest5 => .ok (.obj ((key, v) :: acc).reverse, rest5)
            | _ => .error "Expecting comma"
        | _ => .error "Expecting colon"
    | _ => .error "Expecting property name"

/-- Parse the items of a JSON array after `[` (first item pending). -/
def parseItems (fuel : Nat) (cs : List Char) (acc : List Json) :
    Except String (Json × List Char) :=
  match fuel with
  | 0 => .error "Expecting value"
  | fuel + 1 =>
    match parseVal fuel cs with
    | .error e => .error e
    | .ok (v, rest) =>
      match skipWs rest with
      | ',' :: rest2 => parseItems fuel rest2 (v :: acc)
      | ']' :: rest2 => .ok (.arr (v :: acc).reverse, rest2)
      | _ => .error "Expecting comma"

end

/-- Model of Python's `json.loads` on the modelled JSON fragment (integer
numbers, no `\u` escapes): returns the decoded value, or an error — in Python,
a raised `json.JSONDecodeError` — on malformed input. -/
def jsonLoads (s : String) : Except String Json :=
  match parseVal (s.length + 1) s.data with
  | .error e => .error e
  | .ok (v, rest) =>
    match skipWs rest with
    | [] => .ok v
    | _ => .error "Extra data"

/-! ## Wire client (`src/infrastructure/llm/openai_client.py`) -/

/-- The `"function"` sub-dict of a raw tool call in the provider response:
keys `name` and `arguments`; `none` models an absent key. -/
structure RawFunction where
  name : Option String := none
  arguments : Option String := none
deriving Repr

/-- One element of `choices[0].message.tool_calls` in the provider response,
as the dict the `ChatResponse.tool_calls` property reads with `.get`. -/
structure RawToolCall where
  id : Option String := none
  function : Option RawFunction := none
  type : Option String := none
deriving Repr

/-- The `message` dict of one choice: the two keys the property accessors
read.  `tool_calls := none` models an absent (or `null`, hence falsy) key. -/
structure RawMessage where
  content : Option String := none
  tool_calls : Option (List RawToolCall) := none
deriving Repr

/-- The pydantic `ChatResponse` wire model, restricted to the `choices` list
that its `content`/`tool_calls` properties read; each entry is the choice's
`"message"` value (`none` when the choice dict lacks the key). -/
structure RawResp where
  choices : List (Option RawMessage)
deriving Repr

/-- The `ChatResponse.content` property: `choices[0].get("message", {})
.get("content", "")`, with `""` for an empty choices list. -/
def RawResp.contentP (r : RawResp) : String :=
  match r.choices.head? with
  | some ch =>
    match ch with
    | some m => m.content.getD ""
    | none => ""
  | none => ""

/-- The decoded form of one tool call, as built by the `ChatResponse.tool_calls`
property: keys `id`, `name`, `args` (the `json.loads` of the `arguments`
string) and `type`. -/
structure ToolCallReq where
  id : String
  name : String
  args : Json
  type : String
deriving Repr

/-- Decode one raw tool call as the `tool_calls` list comprehension does.
`args` is `json.loads(arguments)` when the `arguments` string is truthy
(present and non-empty) — a decode failure raises, i.e. propagates as
`Except.error` — and the empty mapping otherwise. -/
def decodeToolCall (loads : String → Except String Json) (c : RawToolCall) :
    Except String ToolCallReq :=
  let fn := c.function.getD {}
  match fn.arguments with
  | some s =>
    if s = "" then .ok ⟨c.id.getD "", fn.name.getD "", .obj [], c.type.getD "function"⟩
    else
      match loads s with
      | .ok v => .ok ⟨c.id.getD "", fn.name.getD "", v, c.type.getD "function"⟩
      | .error e => .error e
  | none => .ok ⟨c.id.getD "", fn.name.getD "", .obj [], c.type.getD "function"⟩

/-- The `ChatResponse.tool_calls` property: reads
`choices[0].message.tool_calls` and converts each entry to the unified
format; an exception from `json.loads` inside the comprehension propagates
out of the property access. -/
def RawResp.toolCallsP (loads : String → Except String Json) (r : RawResp) :
    Except String (List ToolCallReq) :=
  match r.choices.head? with
  | some ch =>
    let message := ch.getD {}
    let tcs := message.tool_calls.getD []
    if tcs.isEmpty then .ok []
    else tcs.mapM (decodeToolCall loads)
  | none => .ok []

/-- The externally observable outcome of the single HTTP POST inside
`OpenAIClient.chat_completion`: a response with a status code, a body and
the result of `response.json()`, or a transport-level failure. -/
inductive HttpOutcome where
  | resp (status : Nat) (body : String) (parsed : Except String RawResp) : HttpOutcome
  | timeoutExn : HttpOutcome
  | requestErrorExn (msg : String) : HttpOutcome

/-- `OpenAIClient.chat_completion`: performs one HTTP exchange (`o` is its
outcome) and either returns the parsed `ChatResponse` or raises — non-200
status raises `Exception("Error code: {status} - {body}")`, a transport
timeout raises `"API请求超时: {timeout}秒"`, a request error raises
`"HTTP请求错误: ..."`, a body-parse failure raises `"响应解析错误: ..."`. -/
def chat_completion (timeoutSecs : Nat) (o : HttpOutcome) : Except String RawResp :=
  match o with
  | .resp status body parsed =>
    if status ≠ 200 then
      .error ("Error code: " ++ toString status ++ " - " ++ body)
    else
      match parsed with
      | .ok r => .ok r
      | .error e => .error ("响应解析错误: " ++ e)
  | .timeoutExn => .error ("API请求超时: " ++ toString timeoutSecs ++ "秒")
  | .requestErrorExn m => .error ("HTTP请求错误: " ++ m)

/-- One formatted tool call as placed on an assistant message by
`LLMClient.chat`: the dict `{id, type, function: {name, arguments}}`,
flattened (`fname`/`arguments` are the `function` sub-dict). -/
structure FormattedToolCall where
  id : String
  type : String
  fname : String
  arguments : String
deriving Repr

/-- The `Message` pydantic model of `openai_client.py`. -/
structure Message where
  role : String
  content : String
  name : Option String := none
  tool_calls : Option (List FormattedToolCall) := none
  tool_call_id : Option String := none
deriving Repr

/-- `create_system_message`. -/
def create_system_message (content : String) : Message :=
  { role := "system", content := content }

/-- `create_user_message`. -/
def create_user_message (content : String) : Message :=
  { role := "user", content := content }

/-- `create_assistant_message`. -/
def create_assistant_message (content : String)
    (tool_calls : Option (List FormattedToolCall)) : Message :=
  { role := "assistant", content := content, tool_calls := tool_calls }

/-- `create_tool_message`. -/
def create_tool_message (content : String) (tool_call_id : String) : Message :=
  { role := "tool", content := content, tool_call_id := some tool_call_id }

/-! ## Tool registry (`src/infrastructure/mcp/client/manager.py`) -/

/-- The `MCPTool` dataclass. -/
structure MCPTool where
  name : String
  description : String
  parameters : Json
  server_name : String
deriving Repr

/-- Outcome of the underlying FastMCP `client.call_tool` invocation wrapped in
`asyncio.wait_for` (lines 144‒147 of `manager.py`): the string result after
the content extraction of lines 152‒155, a timeout, or another exception. -/
inductive ToolRun where
  | ok (result : String) : ToolRun
  | timeout : ToolRun
  | exn (msg : String) : ToolRun

/-- `self.tools[tool_name]` lookup on the registry dict, modelled as an
association list keyed by the qualified `server:tool` name. -/
def lookupTool (tools : List (String × MCPTool)) (toolName : String) : Option MCPTool :=
  (tools.find? fun p => p.fst = toolName).map Prod.snd

/-- `MCPManager.get_tools_for_llm`: converts every registered tool to the
OpenAI function-calling schema, the function name qualified as
`server_name:name`. -/
def get_tools_for_llm (tools : List (String × MCPTool)) : List MCPTool :=
  tools.map fun p =>
    { name := p.snd.server_name ++ ":" ++ p.snd.name
      description := p.snd.description
      parameters := p.snd.parameters
      server_name := p.snd.server_name }

/-- `MCPManager.call_tool`: raises `ValueError("工具不存在: ...")` when the
qualified name is not registered, `ValueError("服务器连接不存在: ...")` when
the owning server has no client, otherwise invokes the FastMCP client (the
`run` oracle) with the tool's unqualified name — a timeout is re-raised as
`ValueError("工具调用超时: ...")`, other exceptions are re-raised as-is.

Alongside the `Except`-modelled result, the second component records the
FastMCP invocations actually attempted, so that theorems can state that no
invocation happens on the early-error paths. -/
def call_tool (tools : List (String × MCPTool)) (clients : List String)
    (run : String → Json → ToolRun) (toolName : String) (arguments : Json) :
    Except String String × List (String × Json) :=
  match lookupTool tools toolName with
  | none => (.error ("工具不存在: " ++ toolName), [])
  | some tool =>
    if clients.contains tool.server_name then
      match run tool.name arguments with
      | .ok r => (.ok r, [(tool.name, arguments)])
      | .timeout => (.error ("工具调用超时: " ++ toolName), [(tool.name, arguments)])
      | .exn m => (.error m, [(tool.name, arguments)])
    else
      (.error ("服务器连接不存在: " ++ tool.server_name), [])

/-! ## Orchestration loop (`src/infrastructure/llm/client.py`) -/

/-- The canned friendly strings of `LLMClient._execute_mcp_tool`'s `except`
branch: `friendly_messages.get(tool_name, f"抱歉，{tool_name}功能暂时不可用，请稍后重试")`. -/
def friendlyMessage (toolName : String) : String :=
  if toolName = "printer_status" then
    "抱歉，打印机状态查询功能暂时不可用，请稍后重试或手动检查设备状态"
  else if toolName = "printer_print" then
    "抱歉，打印功能暂时不可用，请稍后重试或联系技术支持"
  else
    "抱歉，" ++ toolName ++ "功能暂时不可用，请稍后重试"

/-- `LLMClient._execute_mcp_tool`: extracts `name`/`args` from the decoded
tool call, returns `"错误: 工具名称为空"` for an empty name, dispatches through
`MCPManager.call_tool` when a manager is attached (`str(result)` of a string
result is the string itself), and catches every exception into the friendly
degradation message for the tool's name.  Second component: the FastMCP
invocations attempted. -/
def execute_mcp_tool (mcpPresent : Bool) (tools : List (String × MCPTool))
    (clients : List String) (run : String → Json → ToolRun)
    (tc : ToolCallReq) : String × List (String × Json) :=
  let toolName := tc.name
  let toolArgs := tc.args
  if toolName = "" then ("错误: 工具名称为空", [])
  else if mcpPresent then
    match call_tool tools clients run toolName toolArgs with
    | (.ok r, log) => (r, log)
    | (.error _, log) => (friendlyMessage toolName, log)
  else ("抱歉，工具服务暂时不可用", [])

/-- The external collaborators of one `LLMClient.chat` run: the registry and
client table of the attached `MCPManager`, the FastMCP invocation oracle, the
provider's two responses (the second as a function of the conversation sent),
and the `json.loads`/`json.dumps` codec. -/
structure Env where
  tools : List (String × MCPTool)
  clients : List String
  run : String → Json → ToolRun
  loads : String → Except String Json
  dumps : Json → String
  first : Except String RawResp
  second : List Message → Except String RawResp

/-- The `ChatResponse` pydantic model of `client.py`, restricted to the
fields the orchestration contract constrains (the `data`/`metadata` dicts
carry timing and observability values built from wall-clock time, which is
outside the embedding). -/
structure ChatResp where
  success : Bool
  message : String
  error : Option String := none
deriving Repr

/-- Result of one `LLMClient.chat` run together with the observables the
properties quantify over: the FastMCP invocations executed, the number of
provider calls made, and the conversation sent to the second provider call
(`none` when no second call was made). -/
structure ChatOutcome where
  resp : ChatResp
  executed : List (String × Json)
  modelCalls : Nat
  conversation : Option (List Message)
deriving Repr

/-- The failure `ChatResponse` built in `LLMClient.chat`'s `except` branch:
`success=False`, empty message, `error = f"LLM API调用失败: {str(e)}"`. -/
def exceptResp (e : String) : ChatResp :=
  { success := false, message := "", error := some ("LLM API调用失败: " ++ e) }

/-- The initial conversation of `LLMClient.chat` (lines 106‒114):
`[system message (if provided)] ++ [user message]`. -/
def initial_messages (message : String) (system_prompt : Option String) : List Message :=
  (match system_prompt with
   | some sp => [create_system_message sp]
   | none => []) ++ [create_user_message message]

/-- Lines 176‒188: `tool_calls_formatted`, the decoded tool calls re-serialized
into the provider's assistant-message schema (`None` when the list is falsy,
which cannot happen on the branch that builds it). -/
def formatted_tool_calls (dumps : Json → String) (tcs : List ToolCallReq) :
    Option (List FormattedToolCall) :=
  if ¬ tcs.isEmpty then
    some (tcs.map fun tc =>
      { id := tc.id, type := "function", fname := tc.name, arguments := dumps tc.args })
  else none

/-- ASCII whitespace as stripped by Python's `str.strip()` (the embedding
restricts to the ASCII whitespace characters). -/
def isPyWs (c : Char) : Bool :=
  c = ' ' || c = '\t' || c = '\n' || c = '\r' || c = '\x0b' || c = '\x0c'

/-- Model of Python's `str.strip()` with no arguments: drop leading and
trailing whitespace. -/
def pyStrip (s : String) : String :=
  String.mk (((s.data.dropWhile isPyWs).reverse.dropWhile isPyWs).reverse)

/-- Lines 189‒192: the assistant message carrying the tool calls; its content
falls back to `"正在调用工具..."` when the response content is empty
(`response.content` falsy) or whitespace-only (`response.content.strip()`
falsy). -/
def assistant_tool_msg (dumps : Json → String) (r : RawResp) (tcs : List ToolCallReq) :
    Message :=
  create_assistant_message
    (if r.contentP ≠ "" ∧ pyStrip r.contentP ≠ "" then r.contentP else "正在调用工具...")
    (formatted_tool_calls dumps tcs)

/-- Lines 164‒168 and 173‒202: the conversation sent to the second provider
call — the initial messages, the assistant tool-call message, then one
tool-role message per executed tool (content `str(result)`, matching
`tool_call_id`), in the order the tools were executed (which is the order of
`response.tool_calls`). -/
def tool_conversation (mcpPresent : Bool) (env : Env) (messages : List Message)
    (r : RawResp) (tcs : List ToolCallReq) : List Message :=
  messages ++ [assistant_tool_msg env.dumps r tcs] ++
    List.zipWith (fun res tc => create_tool_message res tc.id)
      ((tcs.map (execute_mcp_tool mcpPresent env.tools env.clients env.run)).map Prod.fst)
      tcs

/-- The FastMCP invocations attempted while executing the decoded tool calls
of one response, in execution order. -/
def executed_calls (mcpPresent : Bool) (env : Env) (tcs : List ToolCallReq) :
    List (String × Json) :=
  ((tcs.map (execute_mcp_tool mcpPresent env.tools env.clients env.run)).map Prod.snd).flatten

/-- `LLMClient.chat`, line by line.  `clientInit` is `self._client` being set,
`enableTools`/`mcpPresent` are the `enable_tools and self.mcp_manager` guard.
The initial conversation is `[system?] ++ [user]`; `tools` is
`get_tools_for_llm()` under the guard, else `[]`.  The first provider call and
the `tool_calls` property access (evaluated when building the debug payload
of lines 151‒155 and again at the guard of line 158) may raise into the
`except` branch.  When `tools` and the decoded `tool_calls` are both
non-empty, each tool call is executed sequentially via `_execute_mcp_tool`,
the assistant message and the tool-role results are appended in order, and a
second provider call is made on that conversation; afterwards the metadata
construction of lines 242‒245 evaluates the final response's `tool_calls`
property, which may itself raise.  The success response carries the final
response's `content`. -/
def chat (env : Env) (message : String) (system_prompt : Option String)
    (enableTools : Bool) (mcpPresent : Bool) (clientInit : Bool) : ChatOutcome :=
  if ¬ clientInit then
    ⟨{ success := false, message := "", error := some "LLM客户端未初始化" }, [], 0, none⟩
  else
    let messages := initial_messages message system_prompt
    let tools :=
      if enableTools ∧ mcpPresent then get_tools_for_llm env.tools else []
    match env.first with
    | .error e => ⟨exceptResp e, [], 1, none⟩
    | .ok r =>
      match r.toolCallsP env.loads with
      | .error e => ⟨exceptResp e, [], 1, none⟩
      | .ok tcs =>
        if ¬ tools.isEmpty ∧ ¬ tcs.isEmpty then
          let conversation := tool_conversation mcpPresent env messages r tcs
          let executed := executed_calls mcpPresent env tcs
          match env.second conversation with
          | .error e => ⟨exceptResp e, executed, 2, some conversation⟩
          | .ok r2 =>
            match r2.toolCallsP env.loads with
            | .error e => ⟨exceptResp e, executed, 2, some conversation⟩
            | .ok _ =>
              ⟨{ success := true, message := r2.contentP }, executed, 2, some conversation⟩
        else
          ⟨{ success := true, message := r.contentP }, [], 1, none⟩

/-! ## Sample data for closed witnesses and counterexamples -/

/-- The internal printer-status tool as registered by `MCPManager`. -/
def sampleTool : MCPTool :=
  { name := "printer_status", description := "查询打印机状态",
    parameters := Json.obj [], server_name := "internal" }

/-- A one-tool registry: the qualified key maps to the tool. -/
def sampleRegistry : List (String × MCPTool) := [("internal:printer_status", sampleTool)]

/-- A raw tool call as it appears in a provider response. -/
def rawTC (id name args : String) : RawToolCall :=
  { id := some id, function := some { name := some name, arguments := some args },
    type := some "function" }

/-- A provider response with the given `content` and raw `tool_calls`. -/
def mkResp (content : Option String) (tcs : Option (List RawToolCall)) : RawResp :=
  ⟨[some { content := content, tool_calls := tcs }]⟩

/-- Environment for the happy tool-calling path: one registered tool, the
FastMCP invocation succeeds, and the second provider response itself carries a
further tool call (which must be ignored). -/
def envRound : Env :=
  { tools := sampleRegistry
    clients := ["internal"]
    run := fun _ _ => .ok "\x7b\"state\": \"idle\"\x7d"
    loads := jsonLoads
    dumps := fun _ => "\x7b\x7d"
    first := .ok (mkResp (some "") (some [rawTC "call_1" "internal:printer_status" "\x7b\x7d"]))
    second := fun _ =>
      .ok (mkResp (some "打印机处于空闲状态。")
        (some [rawTC "call_2" "internal:printer_status" "\x7b\x7d"])) }

/-- The decoded form of `envRound`'s first-response tool call. -/
def decodedTC : ToolCallReq :=
  { id := "call_1", name := "internal:printer_status", args := .obj [], type := "function" }

/-- Environment whose FastMCP invocation times out. -/
def envTimeout : Env :=
  { envRound with
    run := fun _ _ => .timeout
    second := fun _ => .ok (mkResp (some "打印机查询超时了。") none) }

/-- Environment whose first response requests a tool absent from the
registry. -/
def envUnknown : Env :=
  { envRound with
    first := .ok (mkResp (some "") (some [rawTC "call_1" "nonexistent:tool" "\x7b\x7d"]))
    second := fun _ => .ok (mkResp (some "该工具不存在。") none) }

/-- The decoded form of `envUnknown`'s tool call. -/
def decodedUnknownTC : ToolCallReq :=
  { id := "call_1", name := "nonexistent:tool", args := .obj [], type := "function" }

/-- Environment whose first response has a tool call with a malformed JSON
`arguments` string. -/
def envBadArgs : Env :=
  { envRound with
    first := .ok (mkResp (some "x") (some [rawTC "call_1" "internal:printer_status" "\x7bbad"])) }

/-- Environment with an empty tool registry while the model still issues a
tool call; the second-response oracle is poisoned so that any second provider
round would surface as a failure. -/
def envEmptyRegistry : Env :=
  { tools := []
    clients := []
    run := fun _ _ => .ok "unreachable"
    loads := jsonLoads
    dumps := fun _ => "\x7b\x7d"
    first := .ok (mkResp (some "hi") (some [rawTC "call_1" "internal:printer_status" "\x7b\x7d"]))
    second := fun _ => .error "second round was made" }

/-- Environment whose first provider exchange comes back with HTTP 500. -/
def envHttp500 : Env :=
  { envRound with
    first := chat_completion 30 (.resp 500 "Internal Server Error" (.ok ⟨[]⟩)) }

/-- Environment whose first response has empty content and no tool calls. -/
def envNoTools : Env :=
  { envRound with first := .ok (mkResp (some "") none) }

/-! ## Helper lemmas -/

theorem zipWith_map_self {α β γ : Type} (f : β → α → γ) (g : α → β) (l : List α) :
    List.zipWith f (l.map g) l = l.map fun a => f (g a) a := by
  induction l with
  | nil => rfl
  | cons a t ih => simp [ih]

/-- The conversation built on the tool branch is the initial messages, the
assistant tool-call message, then one tool message per decoded tool call, in
order, each carrying that call's execution result and id. -/
theorem tool_conversation_eq_map (mp : Bool) (env : Env) (messages : List Message)
    (r : RawResp) (tcs : List ToolCallReq) :
    tool_conversation mp env messages r tcs =
      messages ++ [assistant_tool_msg env.dumps r tcs] ++
        tcs.map (fun tc =>
          create_tool_message (execute_mcp_tool mp env.tools env.clients env.run tc).fst tc.id) := by
  unfold tool_conversation
  rw [List.map_map, zipWith_map_self]
  rfl

theorem tools_nonempty_isEmpty {ts : List (String × MCPTool)} (h : ts ≠ []) :
    (get_tools_for_llm ts).isEmpty = false := by
  cases ts with
  | nil => exact absurd rfl h
  | cons a l => simp [get_tools_for_llm]

theorem list_nonempty_isEmpty {α : Type} {l : List α} (h : l ≠ []) : l.isEmpty = false := by
  cases l with
  | nil => exact absurd rfl h
  | cons a t => simp

/-- Reduction of `chat` on the tool branch when the second provider call and
the final `tool_calls` property access both succeed. -/
theorem chat_branch_ok (env : Env) (m : String) (sp : Option String)
    (r r2 : RawResp) (tcs tcs2 : List ToolCallReq)
    (h1 : env.first = .ok r)
    (h2 : r.toolCallsP env.loads = .ok tcs)
    (h3 : tcs ≠ [])
    (h4 : env.tools ≠ [])
    (h5 : env.second (tool_conversation true env (initial_messages m sp) r tcs) = .ok r2)
    (h6 : r2.toolCallsP env.loads = .ok tcs2) :
    chat env m sp true true true =
      ⟨{ success := true, message := r2.contentP }, executed_calls true env tcs, 2,
       some (tool_conversation true env (initial_messages m sp) r tcs)⟩ := by
  simp [chat, h1, h2, tools_nonempty_isEmpty h4, list_nonempty_isEmpty h3, h5, h6]

/-- Reduction of `chat` on the tool branch irrespective of how the second
provider call turns out: the conversation, execution log and model-call count
are already determined. -/
theorem chat_branch_observables (env : Env) (m : String) (sp : Option String)
    (r : RawResp) (tcs : List ToolCallReq)
    (h1 : env.first = .ok r)
    (h2 : r.toolCallsP env.loads = .ok tcs)
    (h3 : tcs ≠ [])
    (h4 : env.tools ≠ []) :
    (chat env m sp true true true).conversation =
        some (tool_conversation true env (initial_messages m sp) r tcs) ∧
      (chat env m sp true true true).executed = executed_calls true env tcs ∧
      (chat env m sp true true true).modelCalls = 2 := by
  cases h5 : env.second (tool_conversation true env (initial_messages m sp) r tcs) with
  | error e =>
    simp [chat, h1, h2, tools_nonempty_isEmpty h4, list_nonempty_isEmpty h3, h5]
  | ok r2 =>
    cases h6 : r2.toolCallsP env.loads with
    | error e =>
      simp [chat, h1, h2, tools_nonempty_isEmpty h4, list_nonempty_isEmpty h3, h5, h6]
    | ok tcs2 =>
      simp [chat, h1, h2, tools_nonempty_isEmpty h4, list_nonempty_isEmpty h3, h5, h6]

/-! ## Claims -/

/-- C1: when the first model response contains tool_calls (and tools were
sent), exactly one further model call is made after the tool results are
appended — `modelCalls = 2` — and the result's final text is exactly the
second response's `content`; the second response's own tool calls `tcs2` are
arbitrary (in the witness, non-empty) and are never executed: the execution
log is `executed_calls` of the *first* response's tool calls only. -/
theorem c1_single_round_trip (env : Env) (m : String) (sp : Option String)
    (r r2 : RawResp) (tcs tcs2 : List ToolCallReq)
    (h1 : env.first = .ok r)
    (h2 : r.toolCallsP env.loads = .ok tcs)
    (h3 : tcs ≠ [])
    (h4 : env.tools ≠ [])
    (h5 : env.second (tool_conversation true env (initial_messages m sp) r tcs) = .ok r2)
    (h6 : r2.toolCallsP env.loads = .ok tcs2) :
    (chat env m sp true true true).modelCalls = 2 ∧
    (chat env m sp true true true).resp.message = r2.contentP ∧
    (chat env m sp true true true).executed = executed_calls true env tcs := by
  rw [chat_branch_ok env m sp r r2 tcs tcs2 h1 h2 h3 h4 h5 h6]
  exact ⟨rfl, rfl, rfl⟩

/-- Witness for C1 at the concrete `envRound`, whose second response carries a
further (ignored) tool call `call_2`. -/
theorem c1_witness :
    (chat envRound "帮我看看打印机" none true true true).modelCalls = 2 ∧
    (chat envRound "帮我看看打印机" none true true true).resp.message = "打印机处于空闲状态。" ∧
    (chat envRound "帮我看看打印机" none true true true).executed =
      executed_calls true envRound [decodedTC] := by
  have h := c1_single_round_trip envRound "帮我看看打印机" none
    (mkResp (some "") (some [rawTC "call_1" "internal:printer_status" "\x7b\x7d"]))
    (mkResp (some "打印机处于空闲状态。") (some [rawTC "call_2" "internal:printer_status" "\x7b\x7d"]))
    [decodedTC]
    [{ id := "call_2", name := "internal:printer_status", args := .obj [], type := "function" }]
    rfl rfl (by simp) (by simp [envRound, sampleRegistry]) rfl rfl
  exact ⟨h.1, h.2.1.trans rfl, h.2.2⟩

/-- C2: the tools of a tool-calling response are executed in the order the
model listed them, and the conversation receives, after the assistant
message, one tool-role message per call in that same order, each carrying
the stringified result of that call's execution and the matching
`tool_call_id`. -/
theorem c2_tool_message_order (env : Env) (m : String) (sp : Option String)
    (r : RawResp) (tcs : List ToolCallReq)
    (h1 : env.first = .ok r)
    (h2 : r.toolCallsP env.loads = .ok tcs)
    (h3 : tcs ≠ [])
    (h4 : env.tools ≠ []) :
    (chat env m sp true true true).conversation =
      some (initial_messages m sp ++ [assistant_tool_msg env.dumps r tcs] ++
        tcs.map fun tc =>
          create_tool_message (execute_mcp_tool true env.tools env.clients env.run tc).fst
            tc.id) := by
  rw [(chat_branch_observables env m sp r tcs h1 h2 h3 h4).1, tool_conversation_eq_map]

/-- Witness for C2 at the concrete `envRound`: the conversation is the user
message, the assistant tool-call message, then the tool result for `call_1`. -/
theorem c2_witness :
    (chat envRound "查打印机" none true true true).conversation =
      some [create_user_message "查打印机",
        create_assistant_message "正在调用工具..."
          (some [{ id := "call_1", type := "function",
                   fname := "internal:printer_status", arguments := "\x7b\x7d" }]),
        create_tool_message "\x7b\"state\": \"idle\"\x7d" "call_1"] :=
  (c2_tool_message_order envRound "查打印机" none
    (mkResp (some "") (some [rawTC "call_1" "internal:printer_status" "\x7b\x7d"]))
    [decodedTC] rfl rfl (by simp) (by simp [envRound, sampleRegistry])).trans rfl

/-- C7: a non-200 HTTP status on the first model call makes the run terminate
with `success = false` and an error string containing the numeric status
code. -/
theorem c7_http_error (env : Env) (m : String) (sp : Option String)
    (et mp : Bool) (t status : Nat) (body : String) (parsed : Except String RawResp)
    (h0 : env.first = chat_completion t (.resp status body parsed))
    (hs : status ≠ 200) :
    (chat env m sp et mp true).resp.success = false ∧
    ∃ pre post, (chat env m sp et mp true).resp.error =
      some (pre ++ toString status ++ post) := by
  have hfirst : env.first = .error ("Error code: " ++ toString status ++ " - " ++ body) := by
    rw [h0]; simp [chat_completion, hs]
  constructor
  · simp [chat, hfirst, exceptResp]
  · refine ⟨"LLM API调用失败: Error code: ", " - " ++ body, ?_⟩
    have key : ∀ X : String,
        "LLM API调用失败: " ++ ("Error code: " ++ X) = "LLM API调用失败: Error code: " ++ X := by
      intro X
      rw [← String.append_assoc]
      exact congrArg (· ++ X) (by decide)
    simp [chat, hfirst, exceptResp, String.append_assoc, key]

/-- Witness for C7 at the concrete `envHttp500`: a 500 response yields a
failed run whose error embeds `"500"`. -/
theorem c7_witness :
    (chat envHttp500 "Hello" none true true true).resp.success = false ∧
    ∃ pre post, (chat envHttp500 "Hello" none true true true).resp.error =
      some (pre ++ toString 500 ++ post) :=
  c7_http_error envHttp500 "Hello" none true true 30 500 "Internal Server Error"
    (.ok ⟨[]⟩) rfl (by decide)

/-- C8: a first model response with no tool_calls ends the run immediately
with success, final text exactly the response content (no tool invoked, no
second model call); the witness has empty content, showing an empty final
text is still a success. -/
theorem c8_no_tool_path (env : Env) (m : String) (sp : Option String) (r : RawResp)
    (h1 : env.first = .ok r)
    (h2 : r.toolCallsP env.loads = .ok []) :
    chat env m sp true true true =
      ⟨{ success := true, message := r.contentP }, [], 1, none⟩ := by
  simp [chat, h1, h2]

/-- Witness for C8 at the concrete `envNoTools`, whose first response content
is the empty string: the run succeeds with empty final text and executes
nothing. -/
theorem c8_witness :
    chat envNoTools "Hello" none true true true =
      ⟨{ success := true, message := "" }, [], 1, none⟩ :=
  c8_no_tool_path envNoTools "Hello" none (mkResp (some "") none) rfl rfl

/-- C3 counterexample: a provider response whose tool call carries the
malformed arguments string `"\x7bbad"` does *not* yield a ToolCallRequest with
an empty arguments mapping — the `tool_calls` property access raises the
decode error, and the orchestration run fails rather than succeeding. -/
theorem c3_counterexample :
    RawResp.toolCallsP jsonLoads
        (mkResp (some "x") (some [rawTC "call_1" "internal:printer_status" "\x7bbad"])) =
      .error "Expecting property name" ∧
    (chat envBadArgs "m" none true true true).resp =
      { success := false, message := "",
        error := some "LLM API调用失败: Expecting property name" } :=
  ⟨rfl, rfl⟩

/-- C3 (amended): only an absent or empty `arguments` string yields an empty
arguments mapping; a malformed non-empty `arguments` string makes the JSON
decode raise, so the `tool_calls` property access fails and the whole chat
run returns the except-branch failure instead of succeeding. -/
theorem c3_amended (loads : String → Except String Json) (c : RawToolCall)
    (env : Env) (m : String) (sp : Option String) (r : RawResp) (e : String) :
    ((c.function.getD {}).arguments = none →
      ∃ req, decodeToolCall loads c = .ok req ∧ req.args = .obj []) ∧
    ((c.function.getD {}).arguments = some "" →
      ∃ req, decodeToolCall loads c = .ok req ∧ req.args = .obj []) ∧
    (∀ s, (c.function.getD {}).arguments = some s → s ≠ "" → loads s = .error e →
      decodeToolCall loads c = .error e) ∧
    (env.first = .ok r → r.toolCallsP env.loads = .error e →
      chat env m sp true true true = ⟨exceptResp e, [], 1, none⟩) := by
  refine ⟨?_, ?_, ?_, ?_⟩
  · intro h
    refine ⟨⟨c.id.getD "", (c.function.getD {}).name.getD "", .obj [],
      c.type.getD "function"⟩, ?_, rfl⟩
    simp [decodeToolCall, h]
  · intro h
    refine ⟨⟨c.id.getD "", (c.function.getD {}).name.getD "", .obj [],
      c.type.getD "function"⟩, ?_, rfl⟩
    simp [decodeToolCall, h]
  · intro s hs hne hl
    simp [decodeToolCall, hs, hne, hl]
  · intro hf hp
    simp [chat, hf, hp]

/-- Witness for the amended C3: an absent arguments key and an empty
arguments string both decode to the empty mapping, the malformed string
`"\x7bbad"` makes the decode fail, and the run on `envBadArgs` returns the
except-branch failure. -/
theorem c3_witness :
    (∃ req, decodeToolCall jsonLoads
        ⟨some "call_1", some ⟨some "t", none⟩, some "function"⟩ = .ok req ∧
      req.args = .obj []) ∧
    (∃ req, decodeToolCall jsonLoads (rawTC "call_1" "t" "") = .ok req ∧
      req.args = .obj []) ∧
    decodeToolCall jsonLoads (rawTC "call_1" "internal:printer_status" "\x7bbad") =
      .error "Expecting property name" ∧
    chat envBadArgs "m" none true true true =
      ⟨exceptResp "Expecting property name", [], 1, none⟩ := by
  refine ⟨?_, ?_, ?_, ?_⟩
  · exact (c3_amended jsonLoads ⟨some "call_1", some ⟨some "t", none⟩, some "function"⟩
      envBadArgs "m" none (mkResp none none) "x").1 rfl
  · exact (c3_amended jsonLoads (rawTC "call_1" "t" "")
      envBadArgs "m" none (mkResp none none) "x").2.1 rfl
  · exact (c3_amended jsonLoads (rawTC "call_1" "internal:printer_status" "\x7bbad")
      envBadArgs "m" none (mkResp none none) "Expecting property name").2.2.1
      "\x7bbad" rfl (by decide) rfl
  · exact (c3_amended jsonLoads (rawTC "call_1" "t" "") envBadArgs "m" none
      (mkResp (some "x") (some [rawTC "call_1" "internal:printer_status" "\x7bbad"]))
      "Expecting property name").2.2.2 rfl rfl

/-- C4: a tool invocation that times out is converted into a tool-role
message carrying the friendly error indication for that tool name; no
exception escapes the loop, the second model call is still made
(`modelCalls = 2`), and the run still finishes with `success = true`. -/
theorem c4_timeout_isolation (env : Env) (m : String) (sp : Option String)
    (r r2 : RawResp) (tcs tcs2 : List ToolCallReq) (tc : ToolCallReq) (tool : MCPTool)
    (h1 : env.first = .ok r)
    (h2 : r.toolCallsP env.loads = .ok tcs)
    (h3 : tcs ≠ [])
    (h4 : env.tools ≠ [])
    (h5 : env.second (tool_conversation true env (initial_messages m sp) r tcs) = .ok r2)
    (h6 : r2.toolCallsP env.loads = .ok tcs2)
    (htc : tc ∈ tcs)
    (hname : tc.name ≠ "")
    (hlk : lookupTool env.tools tc.name = some tool)
    (hcl : tool.server_name ∈ env.clients)
    (hrun : env.run tool.name tc.args = .timeout) :
    (execute_mcp_tool true env.tools env.clients env.run tc).fst =
      friendlyMessage tc.name ∧
    (chat env m sp true true true).conversation =
      some (tool_conversation true env (initial_messages m sp) r tcs) ∧
    create_tool_message (friendlyMessage tc.name) tc.id ∈
      tool_conversation true env (initial_messages m sp) r tcs ∧
    (chat env m sp true true true).resp.success = true ∧
    (chat env m sp true true true).modelCalls = 2 := by
  have hexec : (execute_mcp_tool true env.tools env.clients env.run tc).fst =
      friendlyMessage tc.name := by
    simp [execute_mcp_tool, call_tool, hname, hlk, hcl, hrun]
  have hco := chat_branch_ok env m sp r r2 tcs tcs2 h1 h2 h3 h4 h5 h6
  refine ⟨hexec, (chat_branch_observables env m sp r tcs h1 h2 h3 h4).1, ?_,
    by rw [hco], by rw [hco]⟩
  rw [tool_conversation_eq_map, ← hexec]
  exact List.mem_append.mpr (Or.inr (List.mem_map.mpr ⟨tc, htc, rfl⟩))

/-- Witness for C4 at the concrete `envTimeout`: the FastMCP call for the
printer-status tool times out, the conversation carries the friendly message
as the tool result, and the run still succeeds after a second model call. -/
theorem c4_witness :
    (execute_mcp_tool true envTimeout.tools envTimeout.clients envTimeout.run
        decodedTC).fst = friendlyMessage "internal:printer_status" ∧
    (chat envTimeout "查打印机" none true true true).conversation =
      some (tool_conversation true envTimeout (initial_messages "查打印机" none)
        (mkResp (some "") (some [rawTC "call_1" "internal:printer_status" "\x7b\x7d"]))
        [decodedTC]) ∧
    create_tool_message (friendlyMessage "internal:printer_status") "call_1" ∈
      tool_conversation true envTimeout (initial_messages "查打印机" none)
        (mkResp (some "") (some [rawTC "call_1" "internal:printer_status" "\x7b\x7d"]))
        [decodedTC] ∧
    (chat envTimeout "查打印机" none true true true).resp.success = true ∧
    (chat envTimeout "查打印机" none true true true).modelCalls = 2 :=
  c4_timeout_isolation envTimeout "查打印机" none
    (mkResp (some "") (some [rawTC "call_1" "internal:printer_status" "\x7b\x7d"]))
    (mkResp (some "打印机查询超时了。") none)
    [decodedTC] [] decodedTC sampleTool
    rfl rfl (List.cons_ne_nil _ _) (List.cons_ne_nil _ _) rfl rfl
    (by simp) (by decide) rfl (by decide) rfl

/-- C5: a qualified tool name absent from the registry makes `call_tool` fail
with the `"工具不存在"` (`ToolNotFoundError`-shaped) error while attempting no
FastMCP invocation at all (for every possible tool backend `run2`, the
invocation log is empty), and an orchestration run containing such a call
still completes with `success = true` when the later model call succeeds. -/
theorem c5_unknown_tool (env : Env) (m : String) (sp : Option String)
    (r r2 : RawResp) (tcs tcs2 : List ToolCallReq) (qname : String) (args : Json)
    (hlk : lookupTool env.tools qname = none)
    (h1 : env.first = .ok r)
    (h2 : r.toolCallsP env.loads = .ok tcs)
    (h3 : tcs ≠ [])
    (h4 : env.tools ≠ [])
    (h5 : env.second (tool_conversation true env (initial_messages m sp) r tcs) = .ok r2)
    (h6 : r2.toolCallsP env.loads = .ok tcs2) :
    (∀ run2 : String → Json → ToolRun,
      call_tool env.tools env.clients run2 qname args =
        (.error ("工具不存在: " ++ qname), [])) ∧
    (chat env m sp true true true).resp.success = true ∧
    (chat env m sp true true true).modelCalls = 2 := by
  have hco := chat_branch_ok env m sp r r2 tcs tcs2 h1 h2 h3 h4 h5 h6
  refine ⟨?_, by rw [hco], by rw [hco]⟩
  intro run2
  simp [call_tool, hlk]

/-- Witness for C5 at the concrete `envUnknown`, whose first response requests
`nonexistent:tool`: the registry lookup fails with the `工具不存在` error and no
FastMCP invocation, yet the run completes successfully. -/
theorem c5_witness :
    call_tool envUnknown.tools envUnknown.clients envUnknown.run "nonexistent:tool"
        (Json.obj []) = (.error ("工具不存在: " ++ "nonexistent:tool"), []) ∧
    (chat envUnknown "调用工具" none true true true).resp.success = true ∧
    (chat envUnknown "调用工具" none true true true).modelCalls = 2 := by
  have h := c5_unknown_tool envUnknown "调用工具" none
    (mkResp (some "") (some [rawTC "call_1" "nonexistent:tool" "\x7b\x7d"]))
    (mkResp (some "该工具不存在。") none)
    [decodedUnknownTC] [] "nonexistent:tool" (Json.obj [])
    rfl rfl rfl (List.cons_ne_nil _ _) (List.cons_ne_nil _ _) rfl rfl
  exact ⟨h.1 envUnknown.run, h.2.1, h.2.2⟩

/-- C6 counterexample: with an empty tool registry, a first response that does
contain a tool call is *not* answered with a ToolNotFoundError-stringified
tool message and a second model round; the tool branch is skipped entirely —
one model call, no conversation built, nothing executed, and the first
response's content returned directly as a success (the second-call oracle of
`envEmptyRegistry` is poisoned, so any second round would have failed). -/
theorem c6_counterexample :
    (chat envEmptyRegistry "你好" none true true true).modelCalls = 1 ∧
    (chat envEmptyRegistry "你好" none true true true).conversation = none ∧
    (chat envEmptyRegistry "你好" none true true true).resp =
      { success := true, message := "hi" } ∧
    (chat envEmptyRegistry "你好" none true true true).executed = [] :=
  ⟨rfl, rfl, rfl, rfl⟩

/-- C6 (amended): when the Tool Registry holds zero tools, the tools list
sent to the model is empty, so the tool branch is never entered even if the
model issues tool_calls: the run returns success immediately with the first
response's content as final text, resolves no tool, and makes no second
model round. -/
theorem c6_amended (env : Env) (m : String) (sp : Option String) (r : RawResp)
    (tcs : List ToolCallReq)
    (h0 : env.tools = [])
    (h1 : env.first = .ok r)
    (h2 : r.toolCallsP env.loads = .ok tcs) :
    chat env m sp true true true =
      ⟨{ success := true, message := r.contentP }, [], 1, none⟩ := by
  simp [chat, h0, h1, h2, get_tools_for_llm]

/-- Witness for the amended C6 at the concrete `envEmptyRegistry`, whose first
response carries a tool call while the registry is empty. -/
theorem c6_witness :
    chat envEmptyRegistry "早上好" none true true true =
      ⟨{ success := true, message := "hi" }, [], 1, none⟩ :=
  c6_amended envEmptyRegistry "早上好" none
    (mkResp (some "hi") (some [rawTC "call_1" "internal:printer_status" "\x7b\x7d"]))
    [decodedTC] rfl rfl rfl

/-- C9: whenever `call_tool` fails (for any reason, the error text `e` being
arbitrary), the tool-role content produced by `_execute_mcp_tool` is exactly
`friendlyMessage` of the tool's name — the predefined apology string for the
well-known names `printer_status` / `printer_print`, and the generic
templated message naming the tool otherwise; the raw error string `e` never
appears, since the output is a function of the tool name alone. -/
theorem c9_friendly_degradation (tools : List (String × MCPTool))
    (clients : List String) (run : String → Json → ToolRun)
    (tc : ToolCallReq) (e : String)
    (hname : tc.name ≠ "")
    (herr : (call_tool tools clients run tc.name tc.args).fst = .error e) :
    (execute_mcp_tool true tools clients run tc).fst = friendlyMessage tc.name ∧
    friendlyMessage "printer_status" =
      "抱歉，打印机状态查询功能暂时不可用，请稍后重试或手动检查设备状态" ∧
    friendlyMessage "printer_print" =
      "抱歉，打印功能暂时不可用，请稍后重试或联系技术支持" ∧
    (tc.name ≠ "printer_status" → tc.name ≠ "printer_print" →
      friendlyMessage tc.name = "抱歉，" ++ tc.name ++ "功能暂时不可用，请稍后重试") := by
  refine ⟨?_, rfl, rfl, ?_⟩
  · rcases h : call_tool tools clients run tc.name tc.args with ⟨res, log⟩
    rw [h] at herr
    have hres : res = .error e := herr
    subst hres
    simp [execute_mcp_tool, hname, h]
  · intro hs hp
    simp [friendlyMessage, hs, hp]

/-- Witness for C9: executing the unregistered `nonexistent:tool` produces the
generic templated message naming the tool, and the two well-known names map
to their canned apology strings. -/
theorem c9_witness :
    (execute_mcp_tool true [] [] (fun _ _ => ToolRun.ok "x") decodedUnknownTC).fst =
      friendlyMessage "nonexistent:tool" ∧
    friendlyMessage "printer_status" =
      "抱歉，打印机状态查询功能暂时不可用，请稍后重试或手动检查设备状态" ∧
    friendlyMessage "printer_print" =
      "抱歉，打印功能暂时不可用，请稍后重试或联系技术支持" ∧
    friendlyMessage "nonexistent:tool" =
      "抱歉，" ++ "nonexistent:tool" ++ "功能暂时不可用，请稍后重试" := by
  have h := c9_friendly_degradation [] [] (fun _ _ => ToolRun.ok "x")
    decodedUnknownTC ("工具不存在: " ++ "nonexistent:tool") (by decide) rfl
  exact ⟨h.1, h.2.1, h.2.2.1, h.2.2.2 (by decide) (by decide)⟩

/-- C10: on the tool branch, the assistant message appended before the tool
results never has empty content — an empty or whitespace-only response
content is replaced by the fixed placeholder `"正在调用工具..."` — and no
assistant message in the built conversation has empty content. -/
theorem c10_assistant_content_nonempty (env : Env) (m : String) (sp : Option String)
    (r : RawResp) (tcs : List ToolCallReq)
    (h1 : env.first = .ok r)
    (h2 : r.toolCallsP env.loads = .ok tcs)
    (h3 : tcs ≠ [])
    (h4 : env.tools ≠ []) :
    (chat env m sp true true true).conversation =
      some (tool_conversation true env (initial_messages m sp) r tcs) ∧
    (assistant_tool_msg env.dumps r tcs).content ≠ "" ∧
    (pyStrip r.contentP = "" →
      (assistant_tool_msg env.dumps r tcs).content = "正在调用工具...") ∧
    (∀ msg ∈ tool_conversation true env (initial_messages m sp) r tcs,
      msg.role = "assistant" → msg.content ≠ "") := by
  have hcontent : (assistant_tool_msg env.dumps r tcs).content =
      if r.contentP ≠ "" ∧ pyStrip r.contentP ≠ "" then r.contentP
      else "正在调用工具..." := rfl
  have hne : (assistant_tool_msg env.dumps r tcs).content ≠ "" := by
    rw [hcontent]
    by_cases hc : r.contentP ≠ "" ∧ pyStrip r.contentP ≠ ""
    · rw [if_pos hc]; exact hc.1
    · rw [if_neg hc]; decide
  refine ⟨(chat_branch_observables env m sp r tcs h1 h2 h3 h4).1, hne, ?_, ?_⟩
  · intro htrim
    rw [hcontent, if_neg]
    intro hc
    exact hc.2 htrim
  · intro msg hmem hrole
    rw [tool_conversation_eq_map] at hmem
    rcases List.mem_append.mp hmem with hmem1 | hmem2
    · rcases List.mem_append.mp hmem1 with hmem0 | hmemA
      · exfalso
        unfold initial_messages at hmem0
        cases sp with
        | none =>
          simp at hmem0
          subst hmem0
          simp [create_user_message] at hrole
        | some s =>
          simp at hmem0
          rcases hmem0 with h | h <;> subst h
          · simp [create_system_message] at hrole
          · simp [create_user_message] at hrole
      · have hmsg : msg = assistant_tool_msg env.dumps r tcs := by
          simpa using hmemA
        rw [hmsg]
        exact hne
    · exfalso
      rcases List.mem_map.mp hmem2 with ⟨tc, _, hform⟩
      rw [← hform] at hrole
      simp [create_tool_message] at hrole

/-- Witness for C10 at the concrete `envRound`, whose first response content
is the empty string: the assistant message carries the placeholder. -/
theorem c10_witness :
    (chat envRound "打印" none true true true).conversation =
      some (tool_conversation true envRound (initial_messages "打印" none)
        (mkResp (some "") (some [rawTC "call_1" "internal:printer_status" "\x7b\x7d"]))
        [decodedTC]) ∧
    (assistant_tool_msg envRound.dumps
      (mkResp (some "") (some [rawTC "call_1" "internal:printer_status" "\x7b\x7d"]))
      [decodedTC]).content = "正在调用工具..." ∧
    (assistant_tool_msg envRound.dumps
      (mkResp (some "") (some [rawTC "call_1" "internal:printer_status" "\x7b\x7d"]))
      [decodedTC]).content ≠ "" := by
  have h := c10_assistant_content_nonempty envRound "打印" none
    (mkResp (some "") (some [rawTC "call_1" "internal:printer_status" "\x7b\x7d"]))
    [decodedTC] rfl rfl (List.cons_ne_nil _ _) (List.cons_ne_nil _ _)
  exact ⟨h.1, h.2.2.1 (by decide), h.2.1⟩

end LumiPilot
